import Mathlib

/-!
Verification of the job lifecycle and asynchronous execution pipeline of the
quant-finance repository.  The definitions below are a shallow embedding of
the Python sources:

* `src/backend/app/models.py`   — the `Job` ORM model and its mutation helpers
* `src/backend/app/schemas.py`  — the response schemas (`JobStatus`, `JobStatusResponse`)
* `src/backend/app/api/jobs.py` — the HTTP endpoints (`create_job`, `get_job`,
  `list_jobs`, `cancel_job`) and the progress heuristics
* `src/backend/app/pubsub.py`   — the Pub/Sub publisher (`publish_job`)
* `src/backend/worker/main.py`  — the worker push handler
  (`process_pubsub_message`, `process_job`)

Modelling conventions: machine timestamps are `Int` seconds, job and user ids
are abstract `Nat`s (uuid generation and uuid string parsing are not
modelled), the base64/JSON decoding of the inner Pub/Sub payload is abstracted
into a `MessageData` value that either carries the decoded job data or is
malformed, and the external collaborators (BigQuery loader, model runner, GCS
writer, Pub/Sub client) are parameters describing the outcome of the
corresponding call, exactly at the granularity at which the Python code
branches on them.
-/

namespace QuantFinance

/-- The closed set of model kinds (`JobType` in `schemas.py`). -/
inductive JobType
| montecarlo
| markowitz
| blackscholes
| backtest
deriving DecidableEq, Repr

/-- The `result_refs` JSON column: a `metrics` sub-object and signed `urls`,
as read back by `get_job` (`job.result_refs.get("metrics")` /
`job.result_refs.get("urls")`).  The metrics payload is opaque to the core. -/
structure ResultRefs where
  metrics : String
  urls : List String
deriving DecidableEq, Repr

/-- The persisted job record (`class Job` in `models.py`).  The `status`
column is a plain string in the database; `params_json` is opaque. -/
structure Job where
  id : Nat
  userId : Nat
  type : JobType
  status : String
  paramsJson : String
  symbols : List String
  startTs : Int
  endTs : Int
  interval : String
  vendor : String
  adjusted : Bool
  createdAt : Int
  startedAt : Option Int
  finishedAt : Option Int
  resultRefs : Option ResultRefs
  error : Option String
deriving DecidableEq, Repr

/-- `Job.update_status` (`models.py` lines 151-165): unconditionally assigns
the requested status, sets `started_at` on first entry to `running`, and
`finished_at` on first entry to `completed`/`failed`.  There is no check of
the previous status.  (The `**kwargs` field updates are performed by the
callers `set_error`/`set_results` below, which assign the field before
delegating here, just as the Python methods do.) -/
def Job.update_status (job : Job) (now : Int) (status : String) : Job :=
  let job' := { job with status := status }
  if status == "running" && job'.startedAt.isNone then
    { job' with startedAt := some now }
  else if (status == "completed" || status == "failed") && job'.finishedAt.isNone then
    { job' with finishedAt := some now }
  else
    job'

/-- `Job.set_error` (`models.py` lines 167-170): assigns `error`, then marks
the record `failed` via `update_status`. -/
def Job.set_error (job : Job) (now : Int) (error : String) : Job :=
  Job.update_status { job with error := some error } now "failed"

/-- `Job.set_results` (`models.py` lines 172-175): assigns `result_refs`,
then marks the record `completed` via `update_status`. -/
def Job.set_results (job : Job) (now : Int) (refs : ResultRefs) : Job :=
  Job.update_status { job with resultRefs := some refs } now "completed"

/-- The terminal lifecycle states of the specification. -/
def terminalStatuses : List String := ["completed", "failed", "cancelled"]

/-- `Job.get_job` (`models.py` lines 116-119): first record with the given id
(`filter(cls.id == job_id).first()`). -/
def Job.get_job (db : List Job) (jobId : Nat) : Option Job :=
  db.find? (fun j => j.id == jobId)

/-- Insert one record into a list already sorted by descending `createdAt`. -/
def insertDesc (j : Job) : List Job → List Job
  | [] => [j]
  | k :: ks => if j.createdAt ≤ k.createdAt then k :: insertDesc j ks else j :: k :: ks

/-- `order_by(created_at.desc())` of `Job.get_user_jobs`, as an insertion
sort. -/
def sortByCreatedDesc : List Job → List Job
  | [] => []
  | j :: js => insertDesc j (sortByCreatedDesc js)

/-- `Job.get_user_jobs` (`models.py` lines 121-140): the caller's records
ordered by descending creation time, a `(page-1)*size` offset and a `size`
limit, paired with the unfiltered count of all the caller's records. -/
def Job.get_user_jobs (db : List Job) (userId : Nat) (page size : Nat) :
    List Job × Nat :=
  let userJobs := sortByCreatedDesc (db.filter (fun j => j.userId == userId))
  let offset := (page - 1) * size
  ((userJobs.drop offset).take size, userJobs.length)

/-- The `JobStatus` response enum of `schemas.py` lines 20-27.  It has no
member for the `cancelled` lifecycle state. -/
inductive SchemaJobStatus
| queued
| running
| completed
| failed
deriving DecidableEq, Repr

/-- Pydantic coercion of a status string into the `JobStatus` enum: any
string outside the four members raises a validation error (`none`). -/
def SchemaJobStatus.ofString : String → Option SchemaJobStatus
  | "queued" => some .queued
  | "running" => some .running
  | "completed" => some .completed
  | "failed" => some .failed
  | _ => none

/-- `_estimate_job_duration` (`api/jobs.py` lines 251-264): a per-kind base
cost plus `min(num_symbols * 2, 60)` seconds.  (The Python `dict.get`
default of 30 is unreachable because every `JobType` member has an entry.) -/
def _estimate_job_duration (jobType : JobType) (numSymbols : Nat) : Nat :=
  let base :=
    match jobType with
    | .montecarlo => 30
    | .markowitz => 15
    | .blackscholes => 10
    | .backtest => 45
  base + min (numSymbols * 2) 60

/-- `_calculate_job_progress` (`api/jobs.py` lines 267-285).  Note that the
Python function consults no clock: for a `running` record it divides
`(started_at - created_at).total_seconds()` — the queue latency, a constant —
by the duration heuristic.  (`created_at` is a non-nullable column, so the
`job.started_at and job.created_at` guard reduces to `started_at` being
present.) -/
def _calculate_job_progress (job : Job) : Option ℚ :=
  if job.status == "queued" then some 0
  else if job.status == "running" then
    match job.startedAt with
    | some startedAt =>
        some (min (9/10 : ℚ)
          (((startedAt - job.createdAt : Int) : ℚ) /
            (_estimate_job_duration job.type job.symbols.length : ℚ)))
    | none => some (1/2)
  else if job.status == "completed" then some 1
  else if job.status == "failed" then some 0
  else none

/-- The error outcomes of the HTTP endpoints, by the status/detail the Python
code raises: 400 invalid id, 404, 403, pydantic response-validation failure
(surfaced as a 500), the 400 "Only queued jobs can be cancelled", and the
generic 500 of `create_job`. -/
inductive ApiError
| invalidIdFormat
| notFound
| accessDenied
| validationFailure
| invalidTransition
| internalError
deriving DecidableEq, Repr

/-- The `JobStatusResponse` schema (`schemas.py` lines 193-217), with the
fields the endpoints populate.  Its `status` field has the closed
`SchemaJobStatus` type. -/
structure JobStatusResponse where
  jobId : Nat
  userId : Nat
  type : JobType
  status : SchemaJobStatus
  symbols : List String
  startTs : Int
  endTs : Int
  interval : String
  vendor : String
  adjusted : Bool
  params : String
  createdAt : Int
  startedAt : Option Int
  finishedAt : Option Int
  metrics : Option String
  resultUrls : Option (List String)
  error : Option String
  progress : Option ℚ
deriving DecidableEq, Repr

/-- Construction of a `JobStatusResponse` from a record, as performed inside
`get_job` and `list_jobs`: pydantic validates the `status` string against the
`SchemaJobStatus` enum and fails when it is not a member. -/
def toJobStatusResponse (job : Job) : Except ApiError JobStatusResponse :=
  match SchemaJobStatus.ofString job.status with
  | none => .error .validationFailure
  | some st =>
      .ok
        { jobId := job.id
          userId := job.userId
          type := job.type
          status := st
          symbols := job.symbols
          startTs := job.startTs
          endTs := job.endTs
          interval := job.interval
          vendor := job.vendor
          adjusted := job.adjusted
          params := job.paramsJson
          createdAt := job.createdAt
          startedAt := job.startedAt
          finishedAt := job.finishedAt
          metrics := job.resultRefs.map (fun r => r.metrics)
          resultUrls := job.resultRefs.map (fun r => r.urls)
          error := job.error
          progress := _calculate_job_progress job }

/-- The `get_job` endpoint (`api/jobs.py` lines 93-144): 404 when the id is
unknown, 403 when the caller does not own the record, otherwise the
`JobStatusResponse` built from the record. -/
def get_job (db : List Job) (callerId : Nat) (jobId : Nat) :
    Except ApiError JobStatusResponse :=
  match Job.get_job db jobId with
  | none => .error .notFound
  | some job =>
      if job.userId != callerId then .error .accessDenied
      else toJobStatusResponse job

/-- The per-record filter of `list_jobs` (`api/jobs.py` lines 163-171): skip
a record when a type filter is present and does not match, or when a status
filter is present and does not match. -/
def matchesFilters (jt : Option JobType) (st : Option String) (j : Job) : Bool :=
  (match jt with
   | none => true
   | some t => j.type == t) &&
  (match st with
   | none => true
   | some s => j.status == s)

/-- The payload of the `list_jobs` endpoint relevant to pagination: the page
of records it renders, the total, and the `has_next` flag.  (Each record is
additionally rendered through `toJobStatusResponse`; that conversion is
orthogonal to the pagination logic studied here.) -/
structure JobListResult where
  jobs : List Job
  total : Nat
  page : Nat
  size : Nat
  hasNext : Bool
deriving DecidableEq, Repr

/-- The `list_jobs` endpoint (`api/jobs.py` lines 147-205): fetches the
paginated page and the unfiltered total via `Job.get_user_jobs`, then — only
if a filter is present — filters the returned page; `total` and
`has_next = page * size < total` are computed from the unfiltered count. -/
def list_jobs (db : List Job) (callerId : Nat) (page size : Nat)
    (jobTypeF : Option JobType) (statusF : Option String) : JobListResult :=
  let paged := Job.get_user_jobs db callerId page size
  let jobs :=
    if jobTypeF.isSome || statusF.isSome then
      paged.1.filter (matchesFilters jobTypeF statusF)
    else paged.1
  { jobs := jobs
    total := paged.2
    page := page
    size := size
    hasNext := decide (page * size < paged.2) }

/-- Replace the first record satisfying `p` (the single ORM object returned
by `first()` and mutated in place by the cancel endpoint). -/
def replaceFirst (f : Job → Job) (p : Job → Bool) : List Job → List Job
  | [] => []
  | k :: ks => if p k then f k :: ks else k :: replaceFirst f p ks

/-- The `cancel_job` endpoint (`api/jobs.py` lines 208-248): 404 when the id
is unknown, 403 when the caller does not own the job, 400
("Only queued jobs can be cancelled") when the status is not `queued`, and
otherwise `update_status(db, "cancelled")` on the fetched record.  The store
is returned alongside the outcome; on every error path it is unchanged. -/
def cancel_job (db : List Job) (callerId : Nat) (jobId : Nat) (now : Int) :
    Option ApiError × List Job :=
  match Job.get_job db jobId with
  | none => (some .notFound, db)
  | some job =>
      if job.userId != callerId then (some .accessDenied, db)
      else if job.status != "queued" then (some .invalidTransition, db)
      else
        (none,
          replaceFirst (fun k => Job.update_status k now "cancelled")
            (fun k => k.id == jobId) db)

/-- The health of the Pub/Sub publisher singleton (`pubsub.py`):
`available` — client initialized and `publish` succeeds; `unavailable` — the
client is `None` (no `GCP_PROJECT`, library missing, or init failure), in
which case `publish_job` logs and returns `None` without raising;
`failing` — client present but `publish`/`future.result()` raises. -/
inductive PubSubMode
| available
| unavailable
| failing
deriving DecidableEq, Repr

/-- The dispatch message built by the `create_job` endpoint (the fields
relevant to the claims; the full payload also carries dates, interval,
vendor, adjusted flag and params). -/
structure DispatchMsg where
  jobId : Nat
  userId : Nat
  type : JobType
  symbols : List String
deriving DecidableEq, Repr

/-- `PubSubPublisher.publish_job` (`pubsub.py` lines 41-68) acting on the
list of messages published so far: no-op success when the client is absent,
append on success, exception propagated on failure. -/
def publish_job (mode : PubSubMode) (published : List DispatchMsg)
    (m : DispatchMsg) : Except Unit (List DispatchMsg) :=
  match mode with
  | .unavailable => .ok published
  | .available => .ok (published ++ [m])
  | .failing => .error ()

/-- `Job.create_job` (`models.py` lines 78-114): builds the record in status
`queued` with fresh timestamps and null result fields, adds it and commits. -/
def Job.create_job (newId userId : Nat) (jobType : JobType)
    (symbols : List String) (startTs endTs : Int) (interval vendor : String)
    (adjusted : Bool) (params : String) (now : Int) : Job :=
  { id := newId
    userId := userId
    type := jobType
    status := "queued"
    paramsJson := params
    symbols := symbols
    startTs := startTs
    endTs := endTs
    interval := interval
    vendor := vendor
    adjusted := adjusted
    createdAt := now
    startedAt := none
    finishedAt := none
    resultRefs := none
    error := none }

/-- The shared state the submission endpoint touches: the committed job
store and the list of published dispatch messages. -/
structure SubmitState where
  db : List Job
  published : List DispatchMsg
deriving DecidableEq, Repr

/-- The `JobCreateResponse` schema fields populated by the endpoint. -/
structure JobCreateResponse where
  jobId : Nat
  status : String
  estimatedDuration : Nat
deriving DecidableEq, Repr

/-- The `create_job` endpoint (`api/jobs.py` lines 24-90): `Job.create_job`
persists (commits) the record, then the dispatch message is published.  When
the publish raises, the `except` block calls `db.rollback()` — which cannot
undo the already-committed insert — and responds 500, so the record survives
in status `queued` while no message was published. -/
def create_job (st : SubmitState) (mode : PubSubMode) (newId userId : Nat)
    (jobType : JobType) (symbols : List String) (startTs endTs : Int)
    (interval vendor : String) (adjusted : Bool) (params : String)
    (now : Int) : Except ApiError JobCreateResponse × SubmitState :=
  let job := Job.create_job newId userId jobType symbols startTs endTs
    interval vendor adjusted params now
  let db := st.db ++ [job]
  match publish_job mode st.published
      { jobId := job.id, userId := job.userId, type := job.type,
        symbols := job.symbols } with
  | .ok published =>
      (.ok
        { jobId := job.id
          status := job.status
          estimatedDuration := _estimate_job_duration jobType symbols.length },
        { db := db, published := published })
  | .error _ => (.error .internalError, { db := db, published := st.published })

/-- The decoded job data the worker extracts from the message payload (the
fields the claims need; the payload also carries dates, interval, vendor,
adjusted flag and params, all forwarded to the collaborators). -/
structure JobData where
  jobId : Nat
  type : JobType
  symbols : List String
deriving DecidableEq, Repr

/-- The inner Pub/Sub payload as seen by the worker after the envelope is
parsed: absent/empty `message.data`, a payload whose base64/JSON decoding
fails, or a well-formed payload carrying the job data. -/
inductive MessageData
| missing
| malformed
| wellFormed (jd : JobData)
deriving DecidableEq, Repr

/-- One push delivery: the `Authorization` header and the message payload. -/
structure Delivery where
  authorization : Option String
  data : MessageData
deriving DecidableEq, Repr

/-- The outcome of the worker's collaborator chain for one job (BigQuery
load, model run, GCS artifact writes): the metrics on success, or the raised
error's message (data unavailable, model error, artifact-write error). -/
inductive PipelineOutcome
| ok (metrics : String) (artifacts : List String)
| err (msg : String)
deriving DecidableEq, Repr

/-- The result of `process_job` together with whether the best-effort
`error.json` write to GCS went through. -/
structure JobRunResult where
  result : Except String String
  errorArtifactWritten : Bool
deriving Repr

/-- `process_job` (`worker/main.py` lines 105-219): runs the pipeline; on
success returns the metrics (the surrounding record store is never read or
written — the worker has no database access).  On any pipeline exception it
attempts to write an `error.json` artifact to GCS, swallowing a failure of
that write (`gcsErrorWriteOk`), and re-raises the original error. -/
def process_job (jd : JobData) (pipeline : JobData → PipelineOutcome)
    (gcsErrorWriteOk : Bool) : JobRunResult :=
  match pipeline jd with
  | .ok metrics _ => { result := .ok metrics, errorArtifactWritten := false }
  | .err e => { result := .error e, errorArtifactWritten := gcsErrorWriteOk }

/-- What one handled delivery produced: the HTTP status of the response, the
job store after handling (the handler has no store handle, so it is always
returned unchanged), whether the pipeline was invoked, and whether an error
artifact was written. -/
structure WorkerResult where
  httpStatus : Nat
  db : List Job
  executedPipeline : Bool
  errorArtifactWritten : Bool
deriving DecidableEq, Repr

/-- The response codes a Pub/Sub push subscription treats as an
acknowledgement; every other code is a negative acknowledgement and causes
redelivery. -/
def ackStatuses : List Nat := [102, 200, 201, 202, 204]

/-- Whether an HTTP status acknowledges the delivery to the broker. -/
def isAck (status : Nat) : Bool := ackStatuses.contains status

/-- The header check `auth_header.startswith("Bearer ")`: the first seven
characters of the header are `Bearer` followed by a space.  (Stated over the
character list so that it is kernel-computable.) -/
def bearerAuthOk (h : String) : Bool := h.data.take 7 == "Bearer ".data

/-- `process_pubsub_message` (`worker/main.py` lines 47-102): 401 when the
`Authorization` header is absent or lacks the `Bearer ` prefix, 400 when
`message.data` is missing/empty, 400 when the base64/JSON decoding of the
payload fails, then `process_job` on the decoded data — 200 on success and,
because `process_job` re-raises pipeline errors into the generic `except`
clause, 500 on pipeline failure.  The job store is never consulted. -/
def process_pubsub_message (db : List Job) (d : Delivery)
    (pipeline : JobData → PipelineOutcome) (gcsErrorWriteOk : Bool) :
    WorkerResult :=
  let authOk :=
    match d.authorization with
    | none => false
    | some h => bearerAuthOk h
  if !authOk then
    { httpStatus := 401, db := db, executedPipeline := false,
      errorArtifactWritten := false }
  else
    match d.data with
    | .missing =>
        { httpStatus := 400, db := db, executedPipeline := false,
          errorArtifactWritten := false }
    | .malformed =>
        { httpStatus := 400, db := db, executedPipeline := false,
          errorArtifactWritten := false }
    | .wellFormed jd =>
        let r := process_job jd pipeline gcsErrorWriteOk
        match r.result with
        | .ok _ =>
            { httpStatus := 200, db := db, executedPipeline := true,
              errorArtifactWritten := r.errorArtifactWritten }
        | .error _ =>
            { httpStatus := 500, db := db, executedPipeline := true,
              errorArtifactWritten := r.errorArtifactWritten }

/-! Concrete fixtures used by witnesses and counterexamples. -/

/-- Decoded job data of a sample dispatch message. -/
def jdSample : JobData := { jobId := 1, type := .blackscholes, symbols := ["AAPL"] }

/-- A pipeline whose collaborator chain succeeds. -/
def plOk : JobData → PipelineOutcome := fun _ => .ok "metrics" ["metrics.json"]

/-- A pipeline whose data load raises `DataUnavailable`. -/
def plErr : JobData → PipelineOutcome := fun _ => .err "DataUnavailable"

/-- A record in the terminal state `cancelled`, owned by user 1. -/
def cancelledJob : Job :=
  { id := 1
    userId := 1
    type := .blackscholes
    status := "cancelled"
    paramsJson := "p"
    symbols := ["AAPL"]
    startTs := 0
    endTs := 10
    interval := "1d"
    vendor := "eodhd"
    adjusted := true
    createdAt := 0
    startedAt := none
    finishedAt := none
    resultRefs := none
    error := none }

/-- A record currently `running`. -/
def runningJob : Job := { cancelledJob with id := 2, status := "running", startedAt := some 60 }

/-- A record in the terminal state `completed`. -/
def completedJob : Job :=
  { cancelledJob with id := 3, status := "completed", startedAt := some 5, finishedAt := some 9 }

/-- A record still `queued` (id 1, owned by user 1). -/
def queuedJob : Job := { cancelledJob with status := "queued" }

/-- An authenticated delivery carrying the sample job data. -/
def delivSample : Delivery :=
  { authorization := some "Bearer push-token", data := .wellFormed jdSample }

/-- A `running` blackscholes record that waited 60 seconds in the queue
(`createdAt = 0`, `startedAt = 60`); its duration heuristic is
10 + min(1*2, 60) = 12 seconds. -/
def progressProbe : Job :=
  { cancelledJob with id := 8, status := "running", createdAt := 0, startedAt := some 60 }

/-- Two queued blackscholes records of user 1, created at times 10 and 5. -/
def listJob1 : Job := { cancelledJob with id := 11, status := "queued", createdAt := 10 }

/-- Second record of the `list_jobs` fixture store. -/
def listJob2 : Job := { cancelledJob with id := 12, status := "queued", createdAt := 5 }

/-- A store holding the two `list_jobs` fixture records. -/
def c10db : List Job := [listJob1, listJob2]

/-! Helper lemmas about the embedded operations. -/

/-- `update_status` always installs exactly the requested status string. -/
theorem update_status_status (job : Job) (now : Int) (s : String) :
    (Job.update_status job now s).status = s := by
  unfold Job.update_status
  dsimp only
  split
  · rfl
  · split <;> rfl

/-- `update_status` never changes the record id. -/
theorem update_status_id (job : Job) (now : Int) (s : String) :
    (Job.update_status job now s).id = job.id := by
  unfold Job.update_status
  dsimp only
  split
  · rfl
  · split <;> rfl

/-- Membership in `replaceFirst`: every element either was in the input list
or is the image under `f` of the first element satisfying `p`. -/
theorem mem_replaceFirst {f : Job → Job} {p : Job → Bool} :
    ∀ {l : List Job} {k : Job}, k ∈ replaceFirst f p l →
      k ∈ l ∨ ∃ j, List.find? p l = some j ∧ k = f j := by
  intro l
  induction l with
  | nil => intro k h; simp [replaceFirst] at h
  | cons a as ih =>
    intro k h
    cases hpa : p a with
    | true =>
      rw [replaceFirst, if_pos hpa] at h
      rcases List.mem_cons.mp h with h | h
      · exact Or.inr ⟨a, by rw [List.find?_cons_of_pos _ hpa], h⟩
      · exact Or.inl (List.mem_cons_of_mem a h)
    | false =>
      rw [replaceFirst, if_neg (by simp [hpa])] at h
      rcases List.mem_cons.mp h with h | h
      · exact Or.inl (h ▸ List.mem_cons_self a as)
      · rcases ih h with h | ⟨j, hj, hkj⟩
        · exact Or.inl (List.mem_cons_of_mem a h)
        · exact Or.inr ⟨j, by rw [List.find?_cons_of_neg _ (by simp [hpa]), hj], hkj⟩

/-- `find?` after `replaceFirst` returns the image of the record `find?`
returned before, provided `f` preserves the predicate. -/
theorem find?_replaceFirst {f : Job → Job} {p : Job → Bool}
    (hf : ∀ x, p (f x) = p x) :
    ∀ {l : List Job} {j : Job}, List.find? p l = some j →
      List.find? p (replaceFirst f p l) = some (f j) := by
  intro l
  induction l with
  | nil => intro j h; simp at h
  | cons a as ih =>
    intro j h
    cases hpa : p a with
    | true =>
      rw [List.find?_cons_of_pos _ hpa] at h
      injection h with h
      subst h
      rw [replaceFirst, if_pos hpa,
        List.find?_cons_of_pos _ (by rw [hf]; exact hpa)]
    | false =>
      rw [List.find?_cons_of_neg _ (by simp [hpa])] at h
      rw [replaceFirst, if_neg (by simp [hpa]),
        List.find?_cons_of_neg _ (by simp [hpa])]
      exact ih h

/-! Claim C1 -/

/-- Claim C1 counterexample: a delivery for a job whose record is already in
the terminal state `cancelled` still executes the pipeline — the handler
performs no idempotency short-circuit, refuting the claim that it reads the
JobRecord state and performs no pipeline execution for terminal jobs. -/
theorem c1_counterexample :
    cancelledJob.status = "cancelled" ∧
    (process_pubsub_message [cancelledJob] delivSample plOk true).executedPipeline = true := by
  decide

/-- Claim C1 (amended): the worker's delivery handler never reads the
JobRecord store and has no idempotency check — every authenticated delivery
with a decodable payload executes the pipeline, whatever the state of the
job's record (terminal states included), and the handler mutates no record. -/
theorem c1_no_idempotency_check (db : List Job) (d : Delivery)
    (pipeline : JobData → PipelineOutcome) (g : Bool) (jd : JobData)
    (h : String) (hauth : d.authorization = some h)
    (hpre : bearerAuthOk h = true) (hdata : d.data = .wellFormed jd) :
    (process_pubsub_message db d pipeline g).executedPipeline = true ∧
    (process_pubsub_message db d pipeline g).db = db := by
  obtain ⟨a, dd⟩ := d
  cases hauth
  cases hdata
  unfold process_pubsub_message
  simp only [hpre, Bool.not_true, Bool.false_eq_true, if_false]
  cases hres : (process_job jd pipeline g).result <;> simp [hres]

/-- Claim C1 witness: the amended theorem applied to a store holding a
cancelled record and a successful pipeline. -/
theorem c1_no_idempotency_check_witness :
    (process_pubsub_message [cancelledJob] delivSample plOk true).executedPipeline = true ∧
    (process_pubsub_message [cancelledJob] delivSample plOk true).db = [cancelledJob] :=
  c1_no_idempotency_check [cancelledJob] delivSample plOk true jdSample
    "Bearer push-token" rfl (by decide) rfl

/-! Claim C2 -/

/-- Claim C2 counterexample: when the pipeline fails, the handler responds
HTTP 500 — not an acknowledgement — and the job record is untouched (still
`running`, never transitioned to `failed`), refuting the claim that the
error is recorded on the record and the delivery is acked. -/
theorem c2_counterexample :
    runningJob.status = "running" ∧
    (process_pubsub_message [runningJob] delivSample plErr true).httpStatus = 500 ∧
    isAck (process_pubsub_message [runningJob] delivSample plErr true).httpStatus = false ∧
    (process_pubsub_message [runningJob] delivSample plErr true).db = [runningJob] := by
  decide

/-- Claim C2 (amended): on pipeline failure the handler makes a best-effort
write of an `error.json` artifact to the object store (a failure of that
write is swallowed), performs no JobRecord transition, and re-raises — the
delivery is answered with HTTP 500, a handler failure that the broker treats
as a negative acknowledgement and redelivers. -/
theorem c2_pipeline_failure_nacked (db : List Job) (d : Delivery)
    (pipeline : JobData → PipelineOutcome) (g : Bool) (jd : JobData)
    (e h : String) (hauth : d.authorization = some h)
    (hpre : bearerAuthOk h = true) (hdata : d.data = .wellFormed jd)
    (hfail : pipeline jd = .err e) :
    (process_pubsub_message db d pipeline g).httpStatus = 500 ∧
    isAck (process_pubsub_message db d pipeline g).httpStatus = false ∧
    (process_pubsub_message db d pipeline g).db = db ∧
    (process_pubsub_message db d pipeline g).errorArtifactWritten = g := by
  obtain ⟨a, dd⟩ := d
  cases hauth
  cases hdata
  unfold process_pubsub_message process_job
  simp [hpre, hfail, isAck, ackStatuses]

/-- Claim C2 witness: the amended theorem applied to a store holding a
running record and a pipeline raising `DataUnavailable`. -/
theorem c2_pipeline_failure_nacked_witness :
    (process_pubsub_message [runningJob] delivSample plErr true).httpStatus = 500 ∧
    isAck (process_pubsub_message [runningJob] delivSample plErr true).httpStatus = false ∧
    (process_pubsub_message [runningJob] delivSample plErr true).db = [runningJob] ∧
    (process_pubsub_message [runningJob] delivSample plErr true).errorArtifactWritten = true :=
  c2_pipeline_failure_nacked [runningJob] delivSample plErr true jdSample
    "DataUnavailable" "Bearer push-token" rfl (by decide) rfl rfl

/-! Claim C5 -/

/-- Claim C5 counterexample: an authenticated delivery whose payload fails
base64/JSON decoding is answered with HTTP 400, which is not an
acknowledgement — the broker will redeliver the poison message, refuting
the claim that the dispatcher returns Ack. -/
theorem c5_counterexample :
    (process_pubsub_message []
      { authorization := some "Bearer push-token", data := .malformed }
      plOk true).httpStatus = 400 ∧
    isAck (process_pubsub_message []
      { authorization := some "Bearer push-token", data := .malformed }
      plOk true).httpStatus = false := by
  decide

/-- Claim C5 (amended): a malformed payload is rejected with HTTP 400
without any processing — the pipeline is not invoked and no record is
touched — but a 400 is a negative acknowledgement, so the broker redelivers
the poison message rather than dropping it. -/
theorem c5_malformed_payload_400 (db : List Job) (d : Delivery)
    (pipeline : JobData → PipelineOutcome) (g : Bool) (h : String)
    (hauth : d.authorization = some h) (hpre : bearerAuthOk h = true)
    (hdata : d.data = .malformed) :
    (process_pubsub_message db d pipeline g).httpStatus = 400 ∧
    isAck (process_pubsub_message db d pipeline g).httpStatus = false ∧
    (process_pubsub_message db d pipeline g).executedPipeline = false ∧
    (process_pubsub_message db d pipeline g).db = db := by
  obtain ⟨a, dd⟩ := d
  cases hauth
  cases hdata
  unfold process_pubsub_message
  simp [hpre, isAck, ackStatuses]

/-- Claim C5 witness: the amended theorem applied to a malformed delivery. -/
theorem c5_malformed_payload_400_witness :
    (process_pubsub_message []
      { authorization := some "Bearer push-token", data := .malformed }
      plOk true).httpStatus = 400 ∧
    isAck (process_pubsub_message []
      { authorization := some "Bearer push-token", data := .malformed }
      plOk true).httpStatus = false ∧
    (process_pubsub_message []
      { authorization := some "Bearer push-token", data := .malformed }
      plOk true).executedPipeline = false ∧
    (process_pubsub_message []
      { authorization := some "Bearer push-token", data := .malformed }
      plOk true).db = [] :=
  c5_malformed_payload_400 []
    { authorization := some "Bearer push-token", data := .malformed }
    plOk true "Bearer push-token" rfl (by decide) rfl

/-! Claim C3 -/

/-- Claim C3 counterexample: `update_status` accepts any target status — on
a record in the terminal state `completed` a mutation to `queued` succeeds
and installs `queued`, refuting the claim that no mutation ever moves a
record out of a terminal state. -/
theorem c3_counterexample :
    completedJob.status ∈ terminalStatuses ∧
    (Job.update_status completedJob 99 "queued").status = "queued" := by
  decide

/-- Claim C3 (amended): the mutation operation `update_status` enforces no
state machine — it installs exactly the status it is asked for, terminal
source states included (only the `started_at`/`finished_at` timestamps are
guarded).  The single state-machine guard in the repository sits in the
cancel endpoint, the only status-mutating call site that is wired up: every
record it returns is either untouched or was `queued` and is now
`cancelled`. -/
theorem c3_update_status_unguarded :
    (∀ (job : Job) (now : Int) (s : String),
      (Job.update_status job now s).status = s) ∧
    (∀ (db : List Job) (uid jid : Nat) (now : Int),
      ∀ k ∈ (cancel_job db uid jid now).2,
        k ∈ db ∨ ∃ j ∈ db, j.status = "queued" ∧
          k = Job.update_status j now "cancelled") := by
  constructor
  · exact update_status_status
  · intro db uid jid now k hk
    unfold cancel_job at hk
    cases hfind : Job.get_job db jid with
    | none => rw [hfind] at hk; exact Or.inl hk
    | some job =>
      rw [hfind] at hk
      dsimp only at hk
      by_cases huid : (job.userId != uid) = true
      · rw [if_pos huid] at hk; exact Or.inl hk
      · rw [if_neg huid] at hk
        by_cases hst : (job.status != "queued") = true
        · rw [if_pos hst] at hk; exact Or.inl hk
        · rw [if_neg hst] at hk
          rcases mem_replaceFirst hk with h | ⟨j, hj, hkj⟩
          · exact Or.inl h
          · have hjob : j = job := by
              rw [Job.get_job] at hfind
              rw [hfind] at hj
              exact (Option.some_inj.mp hj).symm
            subst hjob
            refine Or.inr ⟨j, ?_, ?_, hkj⟩
            · exact List.mem_of_find?_eq_some (by rw [Job.get_job] at hfind; exact hfind)
            · simp only [bne, Bool.not_eq_true', Bool.not_eq_false] at hst
              exact eq_of_beq hst

/-- Claim C3 witness: the cancel-endpoint part of the amended theorem
applied to a store holding one queued record, at the record the endpoint
produces. -/
theorem c3_update_status_unguarded_witness :
    Job.update_status queuedJob 7 "cancelled" ∈ [queuedJob] ∨
      ∃ j ∈ [queuedJob], j.status = "queued" ∧
        Job.update_status queuedJob 7 "cancelled" = Job.update_status j 7 "cancelled" :=
  c3_update_status_unguarded.2 [queuedJob] 1 1 7
    (Job.update_status queuedJob 7 "cancelled") (by decide)

/-! Claim C4 -/

/-- Claim C4 counterexample: with the Pub/Sub client unavailable (no
`GCP_PROJECT`, missing library, or failed initialization) `publish_job`
silently returns `None`, so a submit succeeds — one queued record is
created — while zero dispatch messages are published, refuting "publishes
exactly one dispatch message" for every successful call. -/
theorem c4_counterexample :
    (create_job { db := [], published := [] } .unavailable 1 1 .blackscholes
        ["AAPL"] 0 10 "1d" "eodhd" true "p" 0).1 =
      .ok { jobId := 1, status := "queued", estimatedDuration := 12 } ∧
    ((create_job { db := [], published := [] } .unavailable 1 1 .blackscholes
        ["AAPL"] 0 10 "1d" "eodhd" true "p" 0).2).published = [] := by
  exact ⟨rfl, rfl⟩

/-- Claim C4 (amended): every successful submit creates exactly one record,
in state `queued`; it publishes exactly one dispatch message carrying the
record's job id when the Pub/Sub publisher is configured, but publishes
nothing — while still succeeding — when the publisher is unavailable. -/
theorem c4_submit_one_record (st : SubmitState) (mode : PubSubMode)
    (newId userId : Nat) (jobType : JobType) (symbols : List String)
    (startTs endTs : Int) (interval vendor : String) (adjusted : Bool)
    (params : String) (now : Int)
    (hok : ∃ resp, (create_job st mode newId userId jobType symbols startTs
      endTs interval vendor adjusted params now).1 = .ok resp) :
    (create_job st mode newId userId jobType symbols startTs endTs interval
        vendor adjusted params now).2.db =
      st.db ++ [Job.create_job newId userId jobType symbols startTs endTs
        interval vendor adjusted params now] ∧
    (Job.create_job newId userId jobType symbols startTs endTs interval
        vendor adjusted params now).status = "queued" ∧
    ((mode = .available ∧
        (create_job st mode newId userId jobType symbols startTs endTs
            interval vendor adjusted params now).2.published =
          st.published ++
            [{ jobId := newId, userId := userId, type := jobType,
               symbols := symbols }]) ∨
      (mode = .unavailable ∧
        (create_job st mode newId userId jobType symbols startTs endTs
            interval vendor adjusted params now).2.published =
          st.published)) := by
  cases mode with
  | available =>
    refine ⟨rfl, rfl, Or.inl ⟨rfl, rfl⟩⟩
  | unavailable =>
    refine ⟨rfl, rfl, Or.inr ⟨rfl, rfl⟩⟩
  | failing =>
    obtain ⟨resp, hresp⟩ := hok
    exact absurd hresp (by simp [create_job, publish_job])

/-- Claim C4 witness: the amended theorem applied with an available
publisher and concrete descriptor values. -/
theorem c4_submit_one_record_witness :
    (create_job { db := [], published := [] } .available 1 1 .blackscholes
        ["AAPL"] 0 10 "1d" "eodhd" true "p" 0).2.db =
      [] ++ [Job.create_job 1 1 .blackscholes ["AAPL"] 0 10 "1d" "eodhd"
        true "p" 0] ∧
    (Job.create_job 1 1 .blackscholes ["AAPL"] 0 10 "1d" "eodhd" true "p"
        0).status = "queued" ∧
    ((PubSubMode.available = .available ∧
        (create_job { db := [], published := [] } .available 1 1
            .blackscholes ["AAPL"] 0 10 "1d" "eodhd" true "p" 0).2.published =
          [] ++ [{ jobId := 1, userId := 1, type := .blackscholes,
                   symbols := ["AAPL"] }]) ∨
      (PubSubMode.available = .unavailable ∧
        (create_job { db := [], published := [] } .available 1 1
            .blackscholes ["AAPL"] 0 10 "1d" "eodhd" true "p" 0).2.published =
          [])) :=
  c4_submit_one_record { db := [], published := [] } .available 1 1
    .blackscholes ["AAPL"] 0 10 "1d" "eodhd" true "p" 0 ⟨_, rfl⟩

/-! Claim C6 -/

/-- Claim C6 (confirmed): when the record is persisted but the publish
raises, the endpoint fails (HTTP 500) — yet the committed record survives,
in state `queued`, because the `db.rollback()` in the handler cannot undo
the commit already performed inside `Job.create_job`; no message is
published. -/
theorem c6_publish_failure_keeps_record (st : SubmitState)
    (newId userId : Nat) (jobType : JobType) (symbols : List String)
    (startTs endTs : Int) (interval vendor : String) (adjusted : Bool)
    (params : String) (now : Int) :
    create_job st .failing newId userId jobType symbols startTs endTs
        interval vendor adjusted params now =
      (.error .internalError,
        { db := st.db ++ [Job.create_job newId userId jobType symbols
            startTs endTs interval vendor adjusted params now],
          published := st.published }) ∧
    (Job.create_job newId userId jobType symbols startTs endTs interval
        vendor adjusted params now).status = "queued" :=
  ⟨rfl, rfl⟩

/-! Claim C7 -/

/-- Claim C7 (confirmed): for a stored job owned by the caller, cancel
succeeds exactly when the current status is `queued` — in which case the
stored record becomes `cancelled` — and otherwise fails with the
invalid-transition client error (HTTP 400, "Only queued jobs can be
cancelled") leaving the store unchanged. -/
theorem c7_cancel_only_queued (db : List Job) (uid jid : Nat) (now : Int)
    (job : Job) (hfind : Job.get_job db jid = some job)
    (howner : job.userId = uid) :
    (((cancel_job db uid jid now).1 = none) ↔ job.status = "queued") ∧
    (job.status = "queued" →
      Job.get_job (cancel_job db uid jid now).2 jid =
        some (Job.update_status job now "cancelled") ∧
      (Job.update_status job now "cancelled").status = "cancelled") ∧
    (job.status ≠ "queued" →
      (cancel_job db uid jid now).1 = some .invalidTransition ∧
      (cancel_job db uid jid now).2 = db) := by
  have huid : (job.userId != uid) = false := by simp [howner]
  by_cases hst : job.status = "queued"
  · have hbne : (job.status != "queued") = false := by simp [hst]
    unfold cancel_job
    rw [hfind]
    dsimp only
    rw [if_neg (by simp [huid]), if_neg (by simp [hbne])]
    refine ⟨by simp [hst], fun _ => ⟨?_, update_status_status job now "cancelled"⟩,
      fun hc => absurd hst hc⟩
    have hid : ∀ x : Job,
        ((Job.update_status x now "cancelled").id == jid) = (x.id == jid) := by
      intro x; rw [update_status_id]
    rw [Job.get_job] at hfind ⊢
    exact find?_replaceFirst hid hfind
  · have hbne : (job.status != "queued") = true := by simp [hst]
    unfold cancel_job
    rw [hfind]
    dsimp only
    rw [if_neg (by simp [huid]), if_pos hbne]
    exact ⟨by simp [hst], fun hq => absurd hq hst, fun _ => ⟨rfl, rfl⟩⟩

/-- Claim C7 witness: the theorem applied to a store holding one queued
record owned by the caller. -/
theorem c7_cancel_only_queued_witness :
    (((cancel_job [queuedJob] 1 1 7).1 = none) ↔ queuedJob.status = "queued") ∧
    (queuedJob.status = "queued" →
      Job.get_job (cancel_job [queuedJob] 1 1 7).2 1 =
        some (Job.update_status queuedJob 7 "cancelled") ∧
      (Job.update_status queuedJob 7 "cancelled").status = "cancelled") ∧
    (queuedJob.status ≠ "queued" →
      (cancel_job [queuedJob] 1 1 7).1 = some .invalidTransition ∧
      (cancel_job [queuedJob] 1 1 7).2 = [queuedJob]) :=
  c7_cancel_only_queued [queuedJob] 1 1 7 queuedJob rfl rfl

/-! Claim C8 -/

/-- Claim C8 (code bug): the Progress Estimator's `elapsed` is computed as
`started_at - created_at` — the constant queue latency — rather than the
time elapsed since the job started; the function consults no clock at all
(the embedding takes no "now").  For a running blackscholes job with one
symbol (heuristic duration 10 + min(1*2, 60) = 12 s) that waited 60 s in
the queue, the code reports min(0.9, 60/12) = 0.9 forever — even at the
instant the job starts, when the claimed elapsed-since-start is 0 and the
claimed progress is 0.0.  The queued/completed/failed/cancelled branches
(0.0 / 1.0 / 0.0 / null) match the claim. -/
theorem c8_progress_uses_queue_latency :
    progressProbe.status = "running" ∧
    progressProbe.createdAt = 0 ∧
    progressProbe.startedAt = some 60 ∧
    _estimate_job_duration progressProbe.type progressProbe.symbols.length = 12 ∧
    _calculate_job_progress progressProbe = some (9/10) ∧
    (_calculate_job_progress { progressProbe with status := "queued" } = some 0 ∧
      _calculate_job_progress { progressProbe with status := "completed" } = some 1 ∧
      _calculate_job_progress { progressProbe with status := "failed" } = some 0 ∧
      _calculate_job_progress { progressProbe with status := "cancelled" } = none) := by
  refine ⟨by decide, by decide, by decide, by decide, ?_,
    by decide, by decide, by decide, by decide⟩
  unfold _calculate_job_progress progressProbe cancelledJob
  norm_num [_estimate_job_duration, min_def]
  decide

/-! Claim C9 -/

/-- Claim C9 (code bug): the `JobStatus` response enum has no `cancelled`
member, so for a stored job owned by the caller whose lifecycle state is
`cancelled` — a state the cancel endpoint makes reachable — building the
`JobStatusResponse` fails pydantic validation instead of returning a view
mirroring the record; `getJob` does not return a JobView whose status equals
the record's state for that reachable state. -/
theorem c9_get_job_cancelled_unrenderable :
    cancelledJob.status = "cancelled" ∧
    SchemaJobStatus.ofString "cancelled" = none ∧
    get_job [cancelledJob] 1 1 = .error .validationFailure :=
  ⟨rfl, rfl, rfl⟩

/-! Claim C10 -/

/-- Claim C10 (confirmed): `list_jobs` filters only the already-paginated
page — the filtered call returns exactly the unfiltered page passed through
the filter predicate — while `total` and `has_next` are computed from the
unfiltered count of all the owner's jobs, whatever filters are supplied;
consequently (concrete store `c10db`) a filtered page can hold fewer than
`size` records even though `total` exceeds `page * size`. -/
theorem c10_filters_apply_to_page_only :
    (∀ (db : List Job) (uid page size : Nat) (jt : Option JobType)
        (stf : Option String),
      (list_jobs db uid page size jt stf).total =
        (list_jobs db uid page size none none).total ∧
      (list_jobs db uid page size jt stf).hasNext =
        (list_jobs db uid page size none none).hasNext ∧
      (list_jobs db uid page size jt stf).jobs =
        ((list_jobs db uid page size none none).jobs).filter
          (matchesFilters jt stf)) ∧
    ((list_jobs c10db 1 1 1 (some .markowitz) none).jobs.length = 0 ∧
      (list_jobs c10db 1 1 1 (some .markowitz) none).total = 2 ∧
      1 * 1 < 2 ∧
      (list_jobs c10db 1 1 1 (some .markowitz) none).hasNext = true) := by
  constructor
  · intro db uid page size jt stf
    refine ⟨rfl, rfl, ?_⟩
    have htrue : matchesFilters none none = fun _ : Job => true := rfl
    cases jt <;> cases stf <;>
      simp [list_jobs, matchesFilters, htrue, List.filter_true]
  · decide

end QuantFinance
